import Mathlib

/-!
Shallow embedding, in Lean 4, of the model-collection management core of the
gammapy repository (gammapy/modeling: Parameter, Parameters, Models) and of the
adaptive-smoothing estimator `ASmoothMapEstimator`
(src/gammapy/estimators/asmooth_map.py), together with theorems settling the
frozen specification claims about them.

Machine floats in the source are represented by exact values (`Int`, `ℚ`) or by
symbolic expressions (`RVal`) where only the structure of the computed value
matters; Python exceptions are represented by the explicit `PyExn` type, and
fallible operations return `Except`/products with an `Option PyExn` component.
Mutable Python objects (parameters shared between a collection and its selected
views) are represented by a store `PStore` indexed by `ParamId`, so that
aliasing of parameter objects becomes sharing of store indices.
-/

/-- Python exceptions raised by the modelled code paths. -/
inductive PyExn where
  | valueError (msg : String)
  | typeError (msg : String)
  | notImplementedError
  | unboundLocalError (vname : String)
deriving DecidableEq, Repr

/-- True exactly for the `ValueError` variant of `PyExn`. -/
def PyExn.isValueError : PyExn → Bool
  | .valueError _ => true
  | _ => false

/- ## ASmoothMapEstimator (src/gammapy/estimators/asmooth_map.py) -/

/-- A flattened data cube (`counts`/`background` arrays); the floating-point
entries are abstracted to rationals, which is enough because the claims about
`_significance_cube` concern only its dispatch on the method string. -/
abbrev Cube := List ℚ

/-- The `cubes` dictionary passed to `ASmoothMapEstimator._significance_cube`:
the entries read by that method are `cubes["counts"]` and `cubes["background"]`. -/
structure ScaleCubes where
  counts : Cube
  background : Cube
deriving DecidableEq, Repr

/-- The significance cube computed by `_significance_cube`.  The two numeric
formulas (`CashCountsStatistic(counts, background).significance`, and
`(counts - background)/sqrt(counts + background)` from `_significance_asmooth`)
are floating-point computations involving square roots and logarithms; they are
embedded symbolically as constructors recording which formula was applied to
which inputs, since the claims are about which branch is taken. -/
inductive SignificanceCube where
  | limaOf (counts background : Cube)
  | asmoothOf (counts background : Cube)
deriving DecidableEq, Repr

/-- Embedding of `ASmoothMapEstimator._significance_cube` (asmooth_map.py,
lines 124-139): `"lima"` and `"asmooth"` return a significance cube, `"ts"`
raises `NotImplementedError()`, and any other string raises the `ValueError`
with the message enumerating the valid choices. -/
def significance_cube (cubes : ScaleCubes) (method : String) : Except PyExn SignificanceCube :=
  if method = "lima" then
    Except.ok (SignificanceCube.limaOf cubes.counts cubes.background)
  else if method = "asmooth" then
    Except.ok (SignificanceCube.asmoothOf cubes.counts cubes.background)
  else if method = "ts" then
    Except.error PyExn.notImplementedError
  else
    Except.error (PyExn.valueError
      "Not a valid significance estimation method. Choose one of the following: 'lima' or 'asmooth'")

/-- The kernel class argument of `ASmoothMapEstimator.get_scales`: the code
compares it against the classes `Gaussian2DKernel` and `Tophat2DKernel`; every
other class falls through both branches. -/
inductive KernelClass where
  | gaussian2DKernel
  | tophat2DKernel
  | otherKernel
deriving DecidableEq, Repr

/-- Symbolic floating-point values occurring in `get_scales`:
`invSqrt9Pi` stands for `1.0 / np.sqrt(9 * np.pi)`, `invSqrtPi` for
`1.0 / np.sqrt(np.pi)`; `mul` and `powN` record the broadcast product
`sigma_0 * factor ** np.arange(n_scales)` elementwise. -/
inductive RVal where
  | invSqrt9Pi
  | invSqrtPi
  | ratLit (x : ℚ)
  | mul (a b : RVal)
  | powN (a : RVal) (n : ℕ)
deriving DecidableEq, Repr

/-- Embedding of `np.arange(n)`. -/
def np_arange (n : ℕ) : List ℕ := List.range n

/-- Embedding of `ASmoothMapEstimator.get_scales` (asmooth_map.py, lines
283-291).  `sigma_0` is assigned only in the two kernel branches; for any other
kernel class the final line references the unassigned local `sigma_0`, which in
Python raises an `UnboundLocalError` (a `NameError`). -/
def get_scales (n_scales : ℕ) (factor : RVal) (kernel : KernelClass) :
    Except PyExn (List RVal) :=
  match kernel with
  | KernelClass.gaussian2DKernel =>
      Except.ok ((np_arange n_scales).map (fun k => RVal.mul RVal.invSqrt9Pi (RVal.powN factor k)))
  | KernelClass.tophat2DKernel =>
      Except.ok ((np_arange n_scales).map (fun k => RVal.mul RVal.invSqrtPi (RVal.powN factor k)))
  | KernelClass.otherKernel =>
      Except.error (PyExn.unboundLocalError "sigma_0")

/- ## Helper lemmas -/

/-- `getD` of a mapped range reads back the function value. -/
theorem getD_map_range {α : Type} (f : ℕ → α) (n k : ℕ) (d : α) (h : k < n) :
    ((List.range n).map f).getD k d = f k := by
  rw [List.getD_eq_getElem?_getD]
  rw [List.getElem?_eq_getElem (by simpa using h)]
  simp

/- ## Claim C9 -/

/-- C9 counterexample: the claim says every method string other than `"lima"`
and `"asmooth"` makes `_significance_cube` raise a `ValueError`; but the
explicit `"ts"` branch raises `NotImplementedError()`, which is not a
`ValueError`. -/
theorem c9_counterexample_ts_not_value_error :
    significance_cube ⟨[], []⟩ "ts" = Except.error PyExn.notImplementedError ∧
    PyExn.isValueError PyExn.notImplementedError = false := by
  constructor
  · rfl
  · rfl

/-- C9 (amended): for every method string other than `"lima"`, `"asmooth"` and
`"ts"`, `_significance_cube` raises a `ValueError` whose message enumerates the
valid choices `'lima'` and `'asmooth'`; `"ts"` raises `NotImplementedError`;
`"lima"` and `"asmooth"` return a significance cube without raising. -/
theorem c9_significance_cube_dispatch (cubes : ScaleCubes) (method : String)
    (h1 : method ≠ "lima") (h2 : method ≠ "asmooth") (h3 : method ≠ "ts") :
    significance_cube cubes method = Except.error (PyExn.valueError
      "Not a valid significance estimation method. Choose one of the following: 'lima' or 'asmooth'") ∧
    significance_cube cubes "ts" = Except.error PyExn.notImplementedError ∧
    significance_cube cubes "lima" =
      Except.ok (SignificanceCube.limaOf cubes.counts cubes.background) ∧
    significance_cube cubes "asmooth" =
      Except.ok (SignificanceCube.asmoothOf cubes.counts cubes.background) := by
  refine ⟨?_, rfl, rfl, rfl⟩
  simp [significance_cube, h1, h2, h3]

/-- C9 witness: instantiation of the dispatch theorem at the concrete method
string `"foo"` and empty cubes. -/
theorem c9_significance_cube_dispatch_witness :
    significance_cube ⟨[], []⟩ "foo" = Except.error (PyExn.valueError
      "Not a valid significance estimation method. Choose one of the following: 'lima' or 'asmooth'") ∧
    significance_cube ⟨[], []⟩ "ts" = Except.error PyExn.notImplementedError ∧
    significance_cube ⟨[], []⟩ "lima" = Except.ok (SignificanceCube.limaOf [] []) ∧
    significance_cube ⟨[], []⟩ "asmooth" = Except.ok (SignificanceCube.asmoothOf [] []) :=
  c9_significance_cube_dispatch ⟨[], []⟩ "foo" (by decide) (by decide) (by decide)

/- ## Claim C10 -/

/-- C10: `get_scales(n_scales, factor, kernel)` returns, for the Gaussian and
tophat kernel classes, exactly `n_scales` values forming the geometric sequence
`sigma_0 * factor ** k`, `k = 0 .. n_scales - 1`, with `sigma_0 = 1/sqrt(9 pi)`
for `Gaussian2DKernel` and `1/sqrt(pi)` for `Tophat2DKernel`; for any other
kernel class it fails with the unassigned-local error on `sigma_0` instead of
returning a value. -/
theorem c10_get_scales_geometric (n_scales : ℕ) (factor : RVal) (kernel : KernelClass) :
    (∀ xs, get_scales n_scales factor kernel = Except.ok xs →
      xs.length = n_scales ∧
      ∀ k, k < n_scales → xs.getD k (RVal.ratLit 0) =
        RVal.mul (if kernel = KernelClass.gaussian2DKernel then RVal.invSqrt9Pi else RVal.invSqrtPi)
          (RVal.powN factor k)) ∧
    (kernel = KernelClass.otherKernel →
      get_scales n_scales factor kernel = Except.error (PyExn.unboundLocalError "sigma_0")) := by
  constructor
  · intro xs hxs
    cases kernel with
    | gaussian2DKernel =>
        simp only [get_scales, Except.ok.injEq] at hxs
        subst hxs
        refine ⟨by simp [np_arange], ?_⟩
        intro k hk
        rw [np_arange, getD_map_range _ _ _ _ hk]
        simp
    | tophat2DKernel =>
        simp only [get_scales, Except.ok.injEq] at hxs
        subst hxs
        refine ⟨by simp [np_arange], ?_⟩
        intro k hk
        rw [np_arange, getD_map_range _ _ _ _ hk]
        simp
    | otherKernel => simp [get_scales] at hxs
  · intro hk
    subst hk
    rfl

/-- C10 witness: the theorem instantiated at `n_scales = 3`, a rational factor
`2`, and the Gaussian kernel class, with the hypotheses discharged on the
concrete output list. -/
theorem c10_get_scales_geometric_witness :
    ([RVal.mul RVal.invSqrt9Pi (RVal.powN (RVal.ratLit 2) 0),
      RVal.mul RVal.invSqrt9Pi (RVal.powN (RVal.ratLit 2) 1),
      RVal.mul RVal.invSqrt9Pi (RVal.powN (RVal.ratLit 2) 2)].length = 3 ∧
     ∀ k, k < 3 →
      ([RVal.mul RVal.invSqrt9Pi (RVal.powN (RVal.ratLit 2) 0),
        RVal.mul RVal.invSqrt9Pi (RVal.powN (RVal.ratLit 2) 1),
        RVal.mul RVal.invSqrt9Pi (RVal.powN (RVal.ratLit 2) 2)].getD k (RVal.ratLit 0) =
        RVal.mul (if KernelClass.gaussian2DKernel = KernelClass.gaussian2DKernel
            then RVal.invSqrt9Pi else RVal.invSqrtPi) (RVal.powN (RVal.ratLit 2) k))) :=
  (c10_get_scales_geometric 3 (RVal.ratLit 2) KernelClass.gaussian2DKernel).1 _ (by rfl)

/- ## Parameter store (gammapy/modeling/parameter.py, not under src/) -/

/-- Modelled from the spec: `Parameter` (gammapy/modeling/parameter.py is not
under src/; only its tests are).  Spec section 3: a Parameter holds
{name, value, unit, min, max, frozen, error}; floating-point values are
abstracted to `Int`.  The extra field `frozenDefault` records the frozen flag
of the corresponding entry of the owning model's `default_parameters`, which
`unfreeze` restores (test_management.py, lines 213-218). -/
structure Parameter where
  name : String
  value : Int
  error : Int
  frozen : Bool
  frozenDefault : Bool
  min : Int
  max : Int
deriving DecidableEq, Repr

/-- Placeholder parameter used as the default for out-of-range store reads. -/
def Parameter.default0 : Parameter := ⟨"", 0, 0, false, false, 0, 0⟩

/-- Index of a parameter object in the store; distinct models holding the same
index alias the same mutable Python `Parameter` object. -/
abbrev ParamId := ℕ

/-- The store of all mutable `Parameter` objects of a collection. -/
abbrev PStore := List Parameter

/-- Read a parameter object from the store. -/
def getP (s : PStore) (i : ParamId) : Parameter := s.getD i Parameter.default0

/-- Mutate one parameter object of the store in place. -/
def modifyP (s : PStore) (i : ParamId) (f : Parameter → Parameter) : PStore :=
  s.set i (f (getP s i))

/-- Apply the per-index mutation `g i` to every index of `ids`, left to right
(the shallow embedding of a Python `for` loop mutating parameter objects). -/
def applyIdsF (g : ParamId → Parameter → Parameter) (ids : List ParamId) (s : PStore) : PStore :=
  ids.foldl (fun acc j => modifyP acc j (g j)) s

/-- Apply one parameter mutation to every index of `ids`. -/
def applyIds (f : Parameter → Parameter) (ids : List ParamId) (s : PStore) : PStore :=
  applyIdsF (fun _ => f) ids s

theorem length_modifyP (s : PStore) (i : ParamId) (f : Parameter → Parameter) :
    (modifyP s i f).length = s.length := by
  simp [modifyP]

theorem getP_modifyP_self (s : PStore) (i : ParamId) (f : Parameter → Parameter)
    (hi : i < s.length) : getP (modifyP s i f) i = f (getP s i) := by
  simp [modifyP, getP, List.getD_eq_getElem?_getD, List.getElem?_set_self' , hi,
    List.getElem?_eq_getElem]

theorem getP_modifyP_ne (s : PStore) (i j : ParamId) (f : Parameter → Parameter)
    (hij : j ≠ i) : getP (modifyP s i f) j = getP s j := by
  simp [modifyP, getP, List.getD_eq_getElem?_getD, List.getElem?_set_ne (Ne.symm hij)]

theorem length_applyIdsF (g : ParamId → Parameter → Parameter) (ids : List ParamId)
    (s : PStore) : (applyIdsF g ids s).length = s.length := by
  induction ids generalizing s with
  | nil => rfl
  | cons a t ih => simp [applyIdsF, List.foldl_cons] at ih ⊢; rw [ih, length_modifyP]

/-- Pointwise characterisation of the mutation loop: reading back index `i`
gives `g i` applied once to the original parameter when `i` was visited, and
the untouched parameter otherwise — provided each `g j` is idempotent. -/
theorem getP_applyIdsF (g : ParamId → Parameter → Parameter)
    (hg : ∀ j p, g j (g j p) = g j p) (ids : List ParamId) (s : PStore) (i : ParamId)
    (hi : i < s.length) :
    getP (applyIdsF g ids s) i = if i ∈ ids then g i (getP s i) else getP s i := by
  induction ids generalizing s with
  | nil => simp [applyIdsF]
  | cons a t ih =>
    have hstep : applyIdsF g (a :: t) s = applyIdsF g t (modifyP s a (g a)) := by
      simp [applyIdsF, List.foldl_cons]
    rw [hstep, ih (modifyP s a (g a)) (by rw [length_modifyP]; exact hi)]
    by_cases hia : i = a
    · subst hia
      rw [getP_modifyP_self s i (g i) hi]
      by_cases hit : i ∈ t
      · simp [hit, hg]
      · simp [hit]
    · rw [getP_modifyP_ne s a i (g a) hia]
      by_cases hit : i ∈ t
      · simp [hit, hia]
      · simp [hit, hia]

theorem getP_applyIds (f : Parameter → Parameter) (hf : ∀ p, f (f p) = f p)
    (ids : List ParamId) (s : PStore) (i : ParamId) (hi : i < s.length) :
    getP (applyIds f ids s) i = if i ∈ ids then f (getP s i) else getP s i :=
  getP_applyIdsF (fun _ => f) (fun _ => hf) ids s i hi

/- ## Model and Models (gammapy/modeling/models/core.py and cube.py, not under src/) -/

/-- An axis-aligned rectangle on the sky (`evaluation_region` of a spatial
model): centre and half-sizes, angular coordinates abstracted to `Int`. -/
structure Rect where
  cx : Int
  cy : Int
  hw : Int
  hh : Int
deriving DecidableEq, Repr

/-- Modelled from the spec: `Model` variants (SkyModel / BackgroundModel /
FoVBackgroundModel, gammapy/modeling/models, not under src/).  Spec section 3:
a model is {name, tag, optional spatial/spectral/temporal components,
datasets_names, parameters}.  Each component's parameters are held as store
indices, so that selections share the underlying mutable `Parameter` objects;
`datasets_names = none` means the model applies to all datasets; `position` is
the spatial reference position and `evalRegion` the spatial component's
evaluation region. -/
structure Model where
  name : String
  tag : String
  spatialTag : Option String
  spectralTag : Option String
  temporalTag : Option String
  datasets_names : Option (List String)
  spatialIdx : List ParamId
  spectralIdx : List ParamId
  temporalIdx : List ParamId
  position : Int × Int
  evalRegion : Rect
deriving DecidableEq, Repr

/-- All parameters of a model, in component order. -/
def Model.paramIdx (m : Model) : List ParamId :=
  m.spatialIdx ++ m.spectralIdx ++ m.temporalIdx

/-- The parameters of the component selected by `model_type`
(`None` selects the whole model, as in `Model.freeze(model_type)`). -/
def Model.typeIdx (m : Model) (model_type : Option String) : List ParamId :=
  match model_type with
  | none => m.paramIdx
  | some t =>
    if t = "spatial" then m.spatialIdx
    else if t = "spectral" then m.spectralIdx
    else if t = "temporal" then m.temporalIdx
    else []

/-- An ordered collection of models (`Models`); the parameter store is passed
alongside it. -/
abbrev Models := List Model

/-- Modelled from the spec: `Models.parameters` (core.py, not under src/) — the
flattened union of every contained model's parameters. -/
def Models.parameters (ms : Models) : List ParamId :=
  (ms.map Model.paramIdx).flatten

/-- The union of the `model_type`-component parameters of every model. -/
def Models.typeParameters (model_type : Option String) (ms : Models) : List ParamId :=
  (ms.map (fun m => m.typeIdx model_type)).flatten

/-- Set `frozen = True` on one parameter. -/
def freezeP (p : Parameter) : Parameter := { p with frozen := true }

/-- Restore one parameter's frozen flag to its `default_parameters` value. -/
def unfreezeP (p : Parameter) : Parameter := { p with frozen := p.frozenDefault }

/-- Modelled from the spec: `Models.freeze(model_type)` (core.py, not under
src/) — freezes every parameter of the selected component of every model. -/
def Models.freeze (model_type : Option String) (ms : Models) (s : PStore) : PStore :=
  applyIds freezeP (Models.typeParameters model_type ms) s

/-- Modelled from the spec: `Models.unfreeze(model_type)` (core.py, not under
src/).  The spec's section 8 wording says a blanket unfreeze clears every
frozen flag, but the repository test pins restore-to-default behaviour
(test_management.py lines 213-218: after `models.unfreeze()` the
`reference` and `tilt` parameters are still frozen while `lon_0` is not), so
each parameter's frozen flag is restored to its default state. -/
def Models.unfreeze (model_type : Option String) (ms : Models) (s : PStore) : PStore :=
  applyIds unfreezeP (Models.typeParameters model_type ms) s

theorem typeParameters_none (ms : Models) :
    Models.typeParameters none ms = Models.parameters ms := by
  simp [Models.typeParameters, Models.parameters, Model.typeIdx]

/- ## Claim C2 -/

/-- C2 counterexample: a one-model collection whose single spectral parameter
(`reference`, as in `PowerLawSpectralModel`) has default frozen state `True`.
After `models.freeze(); models.unfreeze()` its frozen flag reads `True`, not
`False` as the claim states. -/
theorem c2_counterexample_reference_stays_frozen :
    (getP (Models.unfreeze none
        [{ name := "source-1", tag := "SkyModel", spatialTag := none,
           spectralTag := some "pl", temporalTag := none, datasets_names := none,
           spatialIdx := [], spectralIdx := [0], temporalIdx := [],
           position := (0, 0), evalRegion := ⟨0, 0, 1, 1⟩ }]
        (Models.freeze none
          [{ name := "source-1", tag := "SkyModel", spatialTag := none,
             spectralTag := some "pl", temporalTag := none, datasets_names := none,
             spatialIdx := [], spectralIdx := [0], temporalIdx := [],
             position := (0, 0), evalRegion := ⟨0, 0, 1, 1⟩ }]
          [{ name := "reference", value := 1, error := 0, frozen := false,
             frozenDefault := true, min := 0, max := 0 }])) 0).frozen = true := by
  rfl

/-- C2 (amended): `models.freeze()` followed by `models.unfreeze()` leaves
every parameter of every model with its frozen flag equal to the parameter's
default frozen state (so default-frozen parameters such as `reference` remain
frozen, while individually-set frozen flags on default-unfrozen parameters are
cleared), not unconditionally `False`. -/
theorem c2_freeze_unfreeze_restores_default (ms : Models) (s : PStore) (i : ParamId)
    (hmem : i ∈ Models.parameters ms) (hi : i < s.length) :
    (getP (Models.unfreeze none ms (Models.freeze none ms s)) i).frozen
      = (getP s i).frozenDefault := by
  have hfrozen : getP (Models.freeze none ms s) i = freezeP (getP s i) := by
    rw [Models.freeze, typeParameters_none,
      getP_applyIds freezeP (fun p => rfl) (Models.parameters ms) s i hi]
    simp [hmem]
  have hlen : (Models.freeze none ms s).length = s.length := by
    rw [Models.freeze]; exact length_applyIdsF _ _ s
  have hunfreeze : getP (Models.unfreeze none ms (Models.freeze none ms s)) i
      = unfreezeP (getP (Models.freeze none ms s) i) := by
    rw [Models.unfreeze, typeParameters_none,
      getP_applyIds unfreezeP (fun p => rfl) (Models.parameters ms)
        (Models.freeze none ms s) i (by rw [hlen]; exact hi)]
    simp [hmem]
  rw [hunfreeze, hfrozen]
  rfl

/-- C2 witness: the amended theorem applied to a concrete one-model collection
with two parameters, one default-frozen and one default-unfrozen. -/
theorem c2_freeze_unfreeze_restores_default_witness :
    (getP (Models.unfreeze none
        [{ name := "m", tag := "SkyModel", spatialTag := none,
           spectralTag := some "pl", temporalTag := none, datasets_names := none,
           spatialIdx := [], spectralIdx := [0, 1], temporalIdx := [],
           position := (0, 0), evalRegion := ⟨0, 0, 1, 1⟩ }]
        (Models.freeze none
          [{ name := "m", tag := "SkyModel", spatialTag := none,
             spectralTag := some "pl", temporalTag := none, datasets_names := none,
             spatialIdx := [], spectralIdx := [0, 1], temporalIdx := [],
             position := (0, 0), evalRegion := ⟨0, 0, 1, 1⟩ }]
          [{ name := "index", value := 2, error := 0, frozen := true,
             frozenDefault := false, min := 0, max := 0 },
           { name := "reference", value := 1, error := 0, frozen := false,
             frozenDefault := true, min := 0, max := 0 }])) 0).frozen
      = ({ name := "index", value := 2, error := 0, frozen := true,
           frozenDefault := false, min := 0, max := 0 } : Parameter).frozenDefault :=
  c2_freeze_unfreeze_restores_default _ _ 0 (by decide) (by decide)

/- ## Selection (Models.select / selection_mask, core.py, not under src/) -/

/-- Boolean infix test on character lists (Python `sub in name`). -/
def listIsInfixB (sub : List Char) : List Char → Bool
  | [] => sub.isEmpty
  | c :: t => sub.isPrefixOf (c :: t) || listIsInfixB sub t

/-- Python `sub in hay` on strings: case-sensitive substring containment. -/
def strContainsSub (hay sub : String) : Bool := listIsInfixB sub.data hay.data

/-- Modelled from the spec: the keyword criteria of `Models.select` /
`Models.selection_mask` (core.py, not under src/); `none` means the criterion
was not supplied, a literal string argument is normalised to a one-element
list. -/
structure SelectCriteria where
  name_substring : Option String
  datasets_names : Option (List String)
  tag : Option (List String)
  model_type : Option String
  frozen : Option Bool
deriving Repr

/-- Modelled from the spec: the `name_substring` criterion — case-sensitive
substring match against `Model.name`. -/
def matchesNameSub (q : Option String) (m : Model) : Bool :=
  match q with
  | none => true
  | some sub => strContainsSub m.name sub

/-- Modelled from the spec: the `datasets_names` criterion — a model with
`datasets_names = None` ("applies to all datasets") matches every query value;
otherwise the model matches when the query list and the model's list
intersect. -/
def matchesDatasets (q : Option (List String)) (m : Model) : Bool :=
  match q with
  | none => true
  | some qs =>
    match m.datasets_names with
    | none => true
    | some ds => qs.any (fun x => ds.contains x)

/-- The tag inspected by the `tag` criterion: the model's own tag when no
`model_type` is given, otherwise the tag of that sub-component (no match when
the component is absent). -/
def Model.typeTag (m : Model) (model_type : Option String) : Option String :=
  match model_type with
  | none => some m.tag
  | some t =>
    if t = "spatial" then m.spatialTag
    else if t = "spectral" then m.spectralTag
    else if t = "temporal" then m.temporalTag
    else none

/-- Modelled from the spec: the `tag` criterion — literal-or-list with OR
semantics against the tag selected by `model_type`. -/
def matchesTag (q : Option (List String)) (model_type : Option String) (m : Model) : Bool :=
  match q with
  | none => true
  | some qs =>
    match m.typeTag model_type with
    | none => false
    | some t => qs.contains t

/-- `Model.frozen` property: `all(p.frozen for p in model.parameters)`. -/
def Model.frozenAll (s : PStore) (m : Model) : Bool :=
  m.paramIdx.all (fun i => (getP s i).frozen)

/-- Modelled from the spec: the `frozen` criterion — the implementation tests
`all(p.frozen for p in model.parameters) == frozen`. -/
def matchesFrozen (q : Option Bool) (s : PStore) (m : Model) : Bool :=
  match q with
  | none => true
  | some b => Model.frozenAll s m == b

/-- Conjunction of all supplied (non-`none`) criteria. -/
def matchesCriteria (c : SelectCriteria) (s : PStore) (m : Model) : Bool :=
  matchesNameSub c.name_substring m && matchesDatasets c.datasets_names m &&
    matchesTag c.tag c.model_type m && matchesFrozen c.frozen s m

/-- Modelled from the spec: `Models.selection_mask` — the ordered boolean
sequence aligned with the collection, one entry per model. -/
def Models.selection_mask (c : SelectCriteria) (ms : Models) (s : PStore) : List Bool :=
  ms.map (matchesCriteria c s)

/-- Modelled from the spec: indexing a collection by a boolean mask
(`models[mask]`) — the sub-collection of models at `True` positions,
preserving order. -/
def maskIndex (ms : Models) (mask : List Bool) : Models :=
  (ms.zip mask).filterMap (fun e => if e.2 then some e.1 else none)

/-- Modelled from the spec: `Models.select` — the boolean selection mask
applied back to the collection. -/
def Models.select (c : SelectCriteria) (ms : Models) (s : PStore) : Models :=
  maskIndex ms (Models.selection_mask c ms s)

theorem maskIndex_map (p : Model → Bool) (ms : Models) :
    maskIndex ms (ms.map p) = ms.filter p := by
  induction ms with
  | nil => rfl
  | cons a t ih =>
    by_cases hpa : p a = true
    · simp [maskIndex, List.filter_cons, hpa] at ih ⊢; exact ih
    · rw [Bool.not_eq_true] at hpa
      simp [maskIndex, List.filter_cons, hpa] at ih ⊢; exact ih

/-- `select` is `filter` by the conjunction of criteria. -/
theorem select_eq_filter (c : SelectCriteria) (ms : Models) (s : PStore) :
    Models.select c ms s = ms.filter (matchesCriteria c s) :=
  maskIndex_map (matchesCriteria c s) ms

/- ## Demo fixtures (concrete store and models used by closed theorems) -/

/-- A frozen spatial parameter (like `lon_0` after an individual freeze). -/
def demoP0 : Parameter :=
  { name := "lon_0", value := 3, error := 0, frozen := true,
    frozenDefault := false, min := -10, max := 10 }

/-- A free spectral parameter (like `index`). -/
def demoP1 : Parameter :=
  { name := "index", value := 2, error := 0, frozen := false,
    frozenDefault := false, min := -5, max := 5 }

/-- A two-parameter store. -/
def demoStore : PStore := [demoP0, demoP1]

/-- A sky model holding both demo parameters; it is partially frozen in
`demoStore` (its spatial parameter is frozen, its spectral one is not). -/
def demoModel : Model :=
  { name := "source-1", tag := "SkyModel", spatialTag := some "gauss",
    spectralTag := some "pl", temporalTag := none, datasets_names := none,
    spatialIdx := [0], spectralIdx := [1], temporalIdx := [],
    position := (3, 4), evalRegion := ⟨3, 4, 6, 6⟩ }

/- ## Claim C4 -/

/-- C4 counterexample: `demoModel` is partially frozen (parameter 0 frozen,
parameter 1 not), yet `models.select(frozen=False)` returns it — contradicting
the claim that a partially-frozen model matches neither the `frozen=True` nor
the `frozen=False` query. -/
theorem c4_counterexample_partial_matches_false :
    Models.select ⟨none, none, none, none, some false⟩ [demoModel] demoStore = [demoModel] ∧
    (getP demoStore 0).frozen = true ∧ (getP demoStore 1).frozen = false := by
  refine ⟨?_, rfl, rfl⟩
  rfl

/-- C4 (amended): `models.select(frozen=b)` returns exactly the models for
which `all(p.frozen for p in model.parameters) == b`, in original collection
order; consequently a partially-frozen model does not match the `frozen=True`
query but does match the `frozen=False` query (its `all(...)` is `False`). -/
theorem c4_select_frozen (ms : Models) (s : PStore) :
    (∀ b, Models.select ⟨none, none, none, none, some b⟩ ms s
        = ms.filter (fun m => Model.frozenAll s m == b)) ∧
    (∀ m, m ∈ ms →
      (∃ i, i ∈ m.paramIdx ∧ (getP s i).frozen = true) →
      (∃ j, j ∈ m.paramIdx ∧ (getP s j).frozen = false) →
      m ∉ Models.select ⟨none, none, none, none, some true⟩ ms s ∧
      m ∈ Models.select ⟨none, none, none, none, some false⟩ ms s) := by
  have hfilter : ∀ b, Models.select ⟨none, none, none, none, some b⟩ ms s
      = ms.filter (fun m => Model.frozenAll s m == b) := by
    intro b
    rw [select_eq_filter]
    rfl
  refine ⟨hfilter, ?_⟩
  rintro m hm ⟨i, hi_mem, hi_frozen⟩ ⟨j, hj_mem, hj_free⟩
  have hall : Model.frozenAll s m = false := by
    cases h : Model.frozenAll s m with
    | false => rfl
    | true =>
      rw [Model.frozenAll, List.all_eq_true] at h
      have := h j hj_mem
      rw [hj_free] at this
      exact absurd this (by simp)
  constructor
  · rw [hfilter true]
    intro hmem
    have := (List.mem_filter.mp hmem).2
    rw [hall] at this
    exact absurd this (by simp)
  · rw [hfilter false]
    exact List.mem_filter.mpr ⟨hm, by rw [hall]; rfl⟩

/-- C4 witness: the amended theorem applied to the one-model demo collection,
whose model is partially frozen. -/
theorem c4_select_frozen_witness :
    demoModel ∉ Models.select ⟨none, none, none, none, some true⟩ [demoModel] demoStore ∧
    demoModel ∈ Models.select ⟨none, none, none, none, some false⟩ [demoModel] demoStore :=
  (c4_select_frozen [demoModel] demoStore).2 demoModel (by decide)
    ⟨0, by decide, by decide⟩ ⟨1, by decide, by decide⟩

/- ## Claim C5 -/

/-- C5: `models.select` with several non-`None` criteria returns exactly the
models satisfying the conjunction of all supplied criteria, preserving
original collection order (the result is a sublist of the collection), and a
model whose `datasets_names` is `None` matches every `datasets_names` query
value. -/
theorem c5_select_conjunction (c : SelectCriteria) (ms : Models) (s : PStore) :
    (∀ m, m ∈ Models.select c ms s ↔ m ∈ ms ∧
        matchesNameSub c.name_substring m = true ∧
        matchesDatasets c.datasets_names m = true ∧
        matchesTag c.tag c.model_type m = true ∧
        matchesFrozen c.frozen s m = true) ∧
    (Models.select c ms s).Sublist ms ∧
    (∀ m : Model, m.datasets_names = none → ∀ q, matchesDatasets q m = true) := by
  refine ⟨?_, ?_, ?_⟩
  · intro m
    rw [select_eq_filter, List.mem_filter, matchesCriteria]
    constructor
    · rintro ⟨hmem, hmatch⟩
      simp only [Bool.and_eq_true] at hmatch
      exact ⟨hmem, hmatch.1.1.1, hmatch.1.1.2, hmatch.1.2, hmatch.2⟩
    · rintro ⟨hmem, h1, h2, h3, h4⟩
      exact ⟨hmem, by simp [h1, h2, h3, h4]⟩
  · rw [select_eq_filter]
    exact List.filter_sublist ms
  · intro m hnone q
    cases q with
    | none => rfl
    | some qs => simp [matchesDatasets, hnone]

/-- C5 witness: the conjunction theorem applied to a concrete query combining
`datasets_names` and `tag`/`model_type` criteria on the demo model (whose
`datasets_names` is `None`, so it matches the dataset query). -/
theorem c5_select_conjunction_witness :
    (demoModel ∈ Models.select
        ⟨none, some ["dataset-1"], some ["pl"], some "spectral", none⟩
        [demoModel] demoStore ↔
      demoModel ∈ [demoModel] ∧
        matchesNameSub none demoModel = true ∧
        matchesDatasets (some ["dataset-1"]) demoModel = true ∧
        matchesTag (some ["pl"]) (some "spectral") demoModel = true ∧
        matchesFrozen none demoStore demoModel = true) ∧
    matchesDatasets (some ["dataset-42"]) demoModel = true :=
  ⟨(c5_select_conjunction ⟨none, some ["dataset-1"], some ["pl"], some "spectral", none⟩
      [demoModel] demoStore).1 demoModel,
   (c5_select_conjunction ⟨none, some ["dataset-1"], some ["pl"], some "spectral", none⟩
      [demoModel] demoStore).2.2 demoModel (by decide) (some ["dataset-42"])⟩

/- ## Claim C6: Models.reassign (core.py, not under src/) -/

/-- Replace one dataset name. -/
def substDs (old new x : String) : String := if x = old then new else x

/-- Modelled from the spec: a datasets-names list that becomes empty reverts to
`None` ("no restriction"), never to an empty list. -/
def normalizeDs (ds : List String) : Option (List String) :=
  if ds.isEmpty then none else some ds

/-- Modelled from the spec: the per-model effect of
`Models.reassign(old_dataset_name, new_dataset_name)` on `datasets_names` —
`None` is untouched, a list containing `old` has that entry replaced with
`new`, and the result is normalised so an empty association reverts to
`None`. -/
def reassignDs (old new : String) : Option (List String) → Option (List String)
  | none => none
  | some ds =>
    if ds.contains old then normalizeDs (ds.map (substDs old new)) else some ds

/-- `Model.reassign`: the model with its `datasets_names` reassigned. -/
def Model.reassign (old new : String) (m : Model) : Model :=
  { m with datasets_names := reassignDs old new m.datasets_names }

/-- Modelled from the spec: `Models.reassign` — a new collection with every
model's `datasets_names` reassigned. -/
def Models.reassign (old new : String) (ms : Models) : Models :=
  ms.map (Model.reassign old new)

/-- C6: under `reassign(old, new)` a model with `datasets_names=[old]` ends
with `datasets_names=[new]`; a model with `datasets_names=None` is unchanged;
and every reassigned association is routed through the normalisation step,
which maps an empty association to `None` rather than an empty list. -/
theorem c6_reassign_datasets (old new : String) (ms : Models) (m : Model) (hm : m ∈ ms) :
    Model.reassign old new m ∈ Models.reassign old new ms ∧
    (m.datasets_names = some [old] →
      (Model.reassign old new m).datasets_names = some [new]) ∧
    (m.datasets_names = none → (Model.reassign old new m).datasets_names = none) ∧
    (∀ ds, m.datasets_names = some ds → ds.contains old = true →
      (Model.reassign old new m).datasets_names = normalizeDs (ds.map (substDs old new))) ∧
    normalizeDs [] = none := by
  refine ⟨List.mem_map_of_mem _ hm, ?_, ?_, ?_, rfl⟩
  · intro h
    simp [Model.reassign, reassignDs, h, normalizeDs, substDs]
  · intro h
    simp [Model.reassign, reassignDs, h]
  · intro ds hds hcontains
    show reassignDs old new m.datasets_names = _
    rw [hds]
    show (if ds.contains old = true then normalizeDs (ds.map (substDs old new)) else some ds)
        = normalizeDs (ds.map (substDs old new))
    rw [hcontains]
    simp

/-- C6 witness: reassignment of `"dataset-2"` to `"dataset-2-copy"` on a model
associated exactly with `["dataset-2"]` (as `source-3` in the tests). -/
theorem c6_reassign_datasets_witness :
    (Model.reassign "dataset-2" "dataset-2-copy"
        { demoModel with datasets_names := some ["dataset-2"] }).datasets_names
      = some ["dataset-2-copy"] :=
  (c6_reassign_datasets "dataset-2" "dataset-2-copy"
      [{ demoModel with datasets_names := some ["dataset-2"] }]
      { demoModel with datasets_names := some ["dataset-2"] }
      (List.mem_singleton.mpr rfl)).2.1 rfl

/- ## Claim C7: Models.select_mask (core.py / cube.py, not under src/) -/

/-- Pad a rectangle outward by an angular margin. -/
def padRect (r : Rect) (margin : Int) : Rect :=
  { r with hw := r.hw + margin, hh := r.hh + margin }

/-- Membership of a sky position in a rectangle. -/
def rectContains (r : Rect) (p : Int × Int) : Bool :=
  decide (r.cx - r.hw ≤ p.1) && decide (p.1 ≤ r.cx + r.hw) &&
    decide (r.cy - r.hh ≤ p.2) && decide (p.2 ≤ r.cy + r.hh)

/-- A binary mask, as the list of sky positions of its `True` pixels. -/
abbrev Mask := List (Int × Int)

/-- Modelled from the spec: `Model.contributes(mask, margin,
use_evaluation_region)` (cube.py, not under src/) — with the evaluation region,
true iff some mask pixel falls inside the region padded outward by the margin
(`margin=None` means zero padding); without it, true iff the model's reference
position falls inside the mask footprint. -/
def Model.contributes (mask : Mask) (margin : Option Int) (useEvalRegion : Bool)
    (m : Model) : Bool :=
  if useEvalRegion then
    mask.any (fun p => rectContains (padRect m.evalRegion (margin.getD 0)) p)
  else
    mask.contains m.position

/-- Modelled from the spec: `Models.select_mask` — the sub-collection of models
that contribute inside the mask, in original order. -/
def Models.select_mask (mask : Mask) (margin : Option Int) (useEvalRegion : Bool)
    (ms : Models) : Models :=
  ms.filter (Model.contributes mask margin useEvalRegion)

theorem rectContains_pad_mono (r : Rect) (m1 m2 : Int) (h : m2 ≤ m1) (p : Int × Int)
    (hc : rectContains (padRect r m2) p = true) : rectContains (padRect r m1) p = true := by
  rw [rectContains] at hc ⊢
  simp only [padRect, Bool.and_eq_true, decide_eq_true_eq] at hc ⊢
  omega

/-- C7: for non-negative margins with `m1 ≥ m2`, every model selected by
`select_mask(mask, margin=m2, use_evaluation_region=True)` is also selected
with margin `m1` — selection is monotone in the margin. -/
theorem c7_select_mask_margin_mono (ms : Models) (mask : Mask) (m1 m2 : Int)
    (h0 : 0 ≤ m2) (h12 : m2 ≤ m1) :
    ∀ m ∈ Models.select_mask mask (some m2) true ms,
      m ∈ Models.select_mask mask (some m1) true ms := by
  intro m hm
  rw [Models.select_mask, List.mem_filter] at hm ⊢
  refine ⟨hm.1, ?_⟩
  have hc : (mask.any fun p => rectContains (padRect m.evalRegion m2) p) = true := hm.2
  rw [List.any_eq_true] at hc
  obtain ⟨p, hp_mem, hp⟩ := hc
  show (mask.any fun p => rectContains (padRect m.evalRegion m1) p) = true
  rw [List.any_eq_true]
  exact ⟨p, hp_mem, rectContains_pad_mono m.evalRegion m1 m2 h12 p hp⟩

/-- C7 witness: a pixel at distance 8 from the demo model's region centre is
reached with margin 3 (half-width 6 + 3 ≥ distance 8... the pixel (11, 4) lies
inside the region padded by 3 and hence also inside the region padded by 5). -/
theorem c7_select_mask_margin_mono_witness :
    demoModel ∈ Models.select_mask [(11, 4)] (some 5) true [demoModel] :=
  c7_select_mask_margin_mono [demoModel] [(11, 4)] 5 3 (by decide) (by decide)
    demoModel (by decide)

/- ## Claim C8: selections are views over shared parameter objects -/

/-- Modelled from the spec: the criteria of `Parameters.select`
(gammapy/modeling/parameter.py, not under src/) — frozen state, and name equal
to a literal or member of a list (a literal is normalised to a one-element
list). -/
structure PSelectCriteria where
  frozen : Option Bool
  name : Option (List String)
deriving Repr

/-- A parameter matches all given criteria of a `Parameters.select` call. -/
def pMatches (c : PSelectCriteria) (p : Parameter) : Bool :=
  (match c.frozen with
   | none => true
   | some b => p.frozen == b) &&
  (match c.name with
   | none => true
   | some ns => ns.contains p.name)

/-- Modelled from the spec: `Parameters.select` — a non-owning view: the
filtered list of indices of the same underlying parameter objects. -/
def Parameters.select (c : PSelectCriteria) (ids : List ParamId) (s : PStore) : List ParamId :=
  ids.filter (fun i => pMatches c (getP s i))

/-- Modelled from the spec: `Parameters.freeze_all` — sets `frozen=True` on
every parameter of the (possibly filtered) set, mutating shared state. -/
def Parameters.freeze_all (ids : List ParamId) (s : PStore) : PStore :=
  applyIds freezeP ids s

/-- Modelled from the spec: `Parameters.unfreeze_all` — sets `frozen=False` on
every parameter of the (possibly filtered) set, mutating shared state. -/
def Parameters.unfreeze_all (ids : List ParamId) (s : PStore) : PStore :=
  applyIds (fun p => { p with frozen := false }) ids s

/-- C8: selections are views sharing the underlying objects with the parent
collection.  `Models.select` returns the very same model objects (not copies);
and after `models.parameters.select(...)`.`unfreeze_all()` mutates the store
through the selected view, reading a selected parameter of any model of the
parent collection shows `frozen=False`, while unselected parameters are
untouched. -/
theorem c8_selection_views_share_state (ms : Models) (s : PStore) (c : SelectCriteria)
    (pc : PSelectCriteria) (mdl : Model) (hmdl : mdl ∈ ms) (i : ParamId)
    (hi_mem : i ∈ mdl.paramIdx) (hi : i < s.length) :
    (∀ m, m ∈ Models.select c ms s → m ∈ ms) ∧
    (i ∈ Parameters.select pc (Models.parameters ms) s →
      (getP (Parameters.unfreeze_all (Parameters.select pc (Models.parameters ms) s) s) i).frozen
        = false) ∧
    (i ∉ Parameters.select pc (Models.parameters ms) s →
      getP (Parameters.unfreeze_all (Parameters.select pc (Models.parameters ms) s) s) i
        = getP s i) := by
  refine ⟨?_, ?_, ?_⟩
  · intro m hm
    rw [select_eq_filter] at hm
    exact (List.mem_filter.mp hm).1
  · intro hv
    rw [Parameters.unfreeze_all, applyIds,
      getP_applyIdsF (fun _ p => { p with frozen := false }) (fun _ _ => rfl)
        (Parameters.select pc (Models.parameters ms) s) s i hi,
      if_pos hv]
  · intro hv
    rw [Parameters.unfreeze_all, applyIds,
      getP_applyIdsF (fun _ p => { p with frozen := false }) (fun _ _ => rfl)
        (Parameters.select pc (Models.parameters ms) s) s i hi,
      if_neg hv]

/-- C8 witness: selecting the `lon_0` parameter by name out of the demo
collection and unfreezing through the view makes the parameter read as
unfrozen through the parent collection's store. -/
theorem c8_selection_views_share_state_witness :
    (getP (Parameters.unfreeze_all
        (Parameters.select ⟨none, some ["lon_0"]⟩ (Models.parameters [demoModel]) demoStore)
        demoStore) 0).frozen = false :=
  (c8_selection_views_share_state [demoModel] demoStore
      ⟨none, none, none, none, none⟩ ⟨none, some ["lon_0"]⟩ demoModel
      (List.mem_singleton.mpr rfl) 0 (by decide) (by decide)).2.1 (by decide)

/- ## Claim C1: Models.restore_status (core.py, not under src/) -/

/-- The collection-level covariance matrix, abstracted to its data. -/
abbrev CovMatrix := List (List Int)

/-- The per-parameter state snapshot {value, error, frozen, min, max} taken at
scope entry by `restore_status`. -/
structure ParamStatus where
  value : Int
  error : Int
  frozen : Bool
  vmin : Int
  vmax : Int
deriving DecidableEq, Repr

/-- The snapshot fields of a parameter. -/
def Parameter.status (p : Parameter) : ParamStatus :=
  ⟨p.value, p.error, p.frozen, p.min, p.max⟩

/-- Modelled from the spec: the exit step of the scoped restore — frozen state
and bounds are restored unconditionally, value and error only when
`restore_values` was requested at entry. -/
def restoreOne (rv : Bool) (st : ParamStatus) (p : Parameter) : Parameter :=
  { p with
    value := if rv then st.value else p.value
    error := if rv then st.error else p.error
    frozen := st.frozen
    min := st.vmin
    max := st.vmax }

theorem restoreOne_idem (rv : Bool) (st : ParamStatus) (p : Parameter) :
    restoreOne rv st (restoreOne rv st p) = restoreOne rv st p := by
  cases rv <;> rfl

/-- Restore every parameter of `ids` in the post-scope store `s1` from its
entry snapshot taken in the pre-scope store `s0`. -/
def restoreSnapshot (rv : Bool) (ids : List ParamId) (s0 s1 : PStore) : PStore :=
  applyIdsF (fun j p => restoreOne rv (Parameter.status (getP s0 j)) p) ids s1

/-- Modelled from the spec: `Models.restore_status(restore_values)` (core.py,
not under src/) — the scoped operation spanning the union of every contained
model's parameters plus the collection-level covariance.  The caller block is
an arbitrary state transformer `body`; its boolean result records whether the
block raised, and the restore step runs on both exit paths.  On exit the
snapshot is restored (frozen and bounds always, value and error only when
`restore_values`), and the covariance is restored to its pre-scope value
regardless of `restore_values`. -/
def Models.restore_status (rv : Bool) (ms : Models)
    (body : PStore × CovMatrix → (PStore × CovMatrix) × Bool)
    (s0 : PStore) (c0 : CovMatrix) : (PStore × CovMatrix) × Bool :=
  ((restoreSnapshot rv (Models.parameters ms) s0 (body (s0, c0)).1.1, c0),
    (body (s0, c0)).2)

/-- C1: entering `restore_status(restore_values)`, mutating parameter state and
the covariance arbitrarily inside the scope, and exiting (normally or via a
raised error — the conclusion does not depend on the raised flag) restores,
for every parameter of the collection: with `restore_values=True` the full
{value, error, frozen, min, max} snapshot, and with `restore_values=False` only
the frozen flag and the min/max bounds, values and errors keeping their last
mutated state; the covariance is restored to its pre-scope value in both
cases. -/
theorem c1_restore_status (rv : Bool) (ms : Models)
    (body : PStore × CovMatrix → (PStore × CovMatrix) × Bool)
    (s0 : PStore) (c0 : CovMatrix)
    (hlen : (body (s0, c0)).1.1.length = s0.length)
    (i : ParamId) (hmem : i ∈ Models.parameters ms) (hi : i < s0.length) :
    (Models.restore_status rv ms body s0 c0).1.2 = c0 ∧
    (rv = true →
      Parameter.status (getP (Models.restore_status rv ms body s0 c0).1.1 i)
        = Parameter.status (getP s0 i)) ∧
    (rv = false →
      (getP (Models.restore_status rv ms body s0 c0).1.1 i).frozen = (getP s0 i).frozen ∧
      (getP (Models.restore_status rv ms body s0 c0).1.1 i).min = (getP s0 i).min ∧
      (getP (Models.restore_status rv ms body s0 c0).1.1 i).max = (getP s0 i).max ∧
      (getP (Models.restore_status rv ms body s0 c0).1.1 i).value
        = (getP (body (s0, c0)).1.1 i).value ∧
      (getP (Models.restore_status rv ms body s0 c0).1.1 i).error
        = (getP (body (s0, c0)).1.1 i).error) := by
  have hres : getP (Models.restore_status rv ms body s0 c0).1.1 i
      = restoreOne rv (Parameter.status (getP s0 i)) (getP (body (s0, c0)).1.1 i) := by
    show getP (restoreSnapshot rv (Models.parameters ms) s0 (body (s0, c0)).1.1) i = _
    rw [restoreSnapshot,
      getP_applyIdsF _ (fun j p => restoreOne_idem rv (Parameter.status (getP s0 j)) p)
        (Models.parameters ms) (body (s0, c0)).1.1 i (by rw [hlen]; exact hi),
      if_pos hmem]
  refine ⟨rfl, ?_, ?_⟩
  · intro hrv
    subst hrv
    rw [hres]
    rfl
  · intro hrv
    subst hrv
    refine ⟨?_, ?_, ?_, ?_, ?_⟩ <;> rw [hres] <;> rfl

/-- C1 witness: the theorem applied to the demo collection with a concrete
scope body that overwrites both parameters and the covariance and exits via a
raised error; with `restore_values=True` the first parameter's full status is
restored and the covariance reads its pre-scope (empty) value. -/
theorem c1_restore_status_witness :
    (Models.restore_status true [demoModel]
        (fun _ => (([demoP1, demoP0], [[2]]), true)) demoStore []).1.2 = ([] : CovMatrix) ∧
    Parameter.status (getP (Models.restore_status true [demoModel]
        (fun _ => (([demoP1, demoP0], [[2]]), true)) demoStore []).1.1 0)
      = Parameter.status (getP demoStore 0) := by
  have h := c1_restore_status true [demoModel]
    (fun _ => (([demoP1, demoP0], [[2]]), true)) demoStore [] rfl 0 (by decide) (by decide)
  exact ⟨h.1, h.2.1 rfl⟩

/- ## Claim C3: Parameters.min / Parameters.max setters (parameter.py, not under src/) -/

/-- The dynamically-typed Python value assigned to the `min`/`max` setter: a
scalar number, a sequence of numbers, or some other (non-numeric, non-sequence)
object. -/
inductive PyVal where
  | num (n : Int)
  | seq (xs : List Int)
  | other
deriving DecidableEq, Repr

/-- Modelled from the spec and the repository test: the `Parameters.min`
setter (parameter.py, not under src/).  The spec says scalars broadcast, but
the repository test pins the error behaviour (test_management.py lines
255-259: `pars.min = 1` raises `TypeError`, `pars.min = [1]` raises
`ValueError`), so the setter first takes `len(min_array)` — a `TypeError` for
a number or other non-sequence — then compares it with the set's length —
a `ValueError` on mismatch — and only then writes elementwise; the pre-scope
store is returned unchanged alongside any raised error. -/
def Parameters.setMin (ids : List ParamId) (v : PyVal) (s : PStore) : PStore × Option PyExn :=
  match v with
  | PyVal.num _ => (s, some (PyExn.typeError "object of type 'int' has no len()"))
  | PyVal.other => (s, some (PyExn.typeError "object has no len()"))
  | PyVal.seq xs =>
    if ids.length = xs.length then
      ((ids.zip xs).foldl (fun acc e => modifyP acc e.1 (fun p => { p with min := e.2 })) s,
        none)
    else
      (s, some (PyExn.valueError "Minima must have same length as parameter list"))

/-- Modelled from the spec and the repository test: the `Parameters.max`
setter, symmetric to `Parameters.setMin`. -/
def Parameters.setMax (ids : List ParamId) (v : PyVal) (s : PStore) : PStore × Option PyExn :=
  match v with
  | PyVal.num _ => (s, some (PyExn.typeError "object of type 'int' has no len()"))
  | PyVal.other => (s, some (PyExn.typeError "object has no len()"))
  | PyVal.seq xs =>
    if ids.length = xs.length then
      ((ids.zip xs).foldl (fun acc e => modifyP acc e.1 (fun p => { p with max := e.2 })) s,
        none)
    else
      (s, some (PyExn.valueError "Maxima must have same length as parameter list"))

/-- C3 counterexample: assigning the scalar `7` to the `min` setter of a
two-parameter set does not broadcast — both parameters keep their old bounds
(`-10` and `-5`, not `7`) and a `TypeError` is raised, contradicting the
claimed scalar broadcast. -/
theorem c3_counterexample_scalar_not_broadcast :
    (getP (Parameters.setMin [0, 1] (PyVal.num 7) demoStore).1 0).min = -10 ∧
    (getP (Parameters.setMin [0, 1] (PyVal.num 7) demoStore).1 1).min = -5 ∧
    (Parameters.setMin [0, 1] (PyVal.num 7) demoStore).2
      = some (PyExn.typeError "object of type 'int' has no len()") := by
  refine ⟨rfl, rfl, rfl⟩

/-- C3 (amended): assigning a scalar number to the `min` (or `max`) setter
raises a `TypeError` (scalars are not broadcast); assigning a sequence whose
length differs from the set's length raises a `ValueError`; assigning a
non-numeric/non-sequence object raises a `TypeError`; and every failed
assignment leaves the store unchanged (all-or-nothing). -/
theorem c3_bounds_setters (ids : List ParamId) (s : PStore) (n : Int) (xs : List Int)
    (v : PyVal) (hxs : xs.length ≠ ids.length) :
    Parameters.setMin ids (PyVal.num n) s
      = (s, some (PyExn.typeError "object of type 'int' has no len()")) ∧
    Parameters.setMin ids (PyVal.seq xs) s
      = (s, some (PyExn.valueError "Minima must have same length as parameter list")) ∧
    Parameters.setMin ids PyVal.other s
      = (s, some (PyExn.typeError "object has no len()")) ∧
    ((Parameters.setMin ids v s).2 ≠ none → (Parameters.setMin ids v s).1 = s) ∧
    Parameters.setMax ids (PyVal.num n) s
      = (s, some (PyExn.typeError "object of type 'int' has no len()")) ∧
    Parameters.setMax ids (PyVal.seq xs) s
      = (s, some (PyExn.valueError "Maxima must have same length as parameter list")) ∧
    ((Parameters.setMax ids v s).2 ≠ none → (Parameters.setMax ids v s).1 = s) := by
  have hne : ¬ ids.length = xs.length := fun h => hxs h.symm
  refine ⟨rfl, ?_, rfl, ?_, rfl, ?_, ?_⟩
  · simp [Parameters.setMin, hne]
  · cases v with
    | num n => intro _; rfl
    | other => intro _; rfl
    | seq ys =>
      by_cases hlen : ids.length = ys.length
      · intro hcontra
        exact absurd (by simp [Parameters.setMin, hlen]) hcontra
      · intro _
        simp [Parameters.setMin, hlen]
  · simp [Parameters.setMax, hne]
  · cases v with
    | num n => intro _; rfl
    | other => intro _; rfl
    | seq ys =>
      by_cases hlen : ids.length = ys.length
      · intro hcontra
        exact absurd (by simp [Parameters.setMax, hlen]) hcontra
      · intro _
        simp [Parameters.setMax, hlen]

/-- C3 witness: the amended theorem at the two-parameter demo store, scalar
`1`, mismatched one-element sequence `[1]`, and the `other` value. -/
theorem c3_bounds_setters_witness :
    Parameters.setMin [0, 1] (PyVal.num 1) demoStore
      = (demoStore, some (PyExn.typeError "object of type 'int' has no len()")) ∧
    Parameters.setMin [0, 1] (PyVal.seq [1]) demoStore
      = (demoStore, some (PyExn.valueError "Minima must have same length as parameter list")) ∧
    Parameters.setMin [0, 1] PyVal.other demoStore
      = (demoStore, some (PyExn.typeError "object has no len()")) ∧
    ((Parameters.setMin [0, 1] PyVal.other demoStore).2 ≠ none →
      (Parameters.setMin [0, 1] PyVal.other demoStore).1 = demoStore) ∧
    Parameters.setMax [0, 1] (PyVal.num 1) demoStore
      = (demoStore, some (PyExn.typeError "object of type 'int' has no len()")) ∧
    Parameters.setMax [0, 1] (PyVal.seq [1]) demoStore
      = (demoStore, some (PyExn.valueError "Maxima must have same length as parameter list")) ∧
    ((Parameters.setMax [0, 1] PyVal.other demoStore).2 ≠ none →
      (Parameters.setMax [0, 1] PyVal.other demoStore).1 = demoStore) :=
  c3_bounds_setters [0, 1] demoStore 1 [1] PyVal.other (by decide)
